import Mathlib

/-!
Verification of the yaui asynchronous job-dispatch pool and its text
generation cache, as a shallow embedding of the Rust sources
(src/crates/background_worker/src/lib.rs and src/api_test/src/font.rs).

Modelling conventions:
- machine integers (u32, u64, usize) are modelled as Nat;
- f32 values are modelled as rationals, so 1.1 is the exact rational 11/10;
- HashMap is modelled as an association list with insert-replaces semantics;
- a capacity-1 crossbeam channel is modelled by its current content, an
  Option value (none when try_recv would find no message);
- the external cosmic_text / tiny_skia backends (font database, shaping,
  rasterization) are out of scope of the spec and enter the model as
  oracle parameters (FontDb, Raster);
- the worker threads drain the FIFO submission queue; since every job body
  runs under the single shared-state mutex, execution is serialized and is
  modelled by a fold over the queue;
- a Rust panic (panic!, unwrap on Err) inside a job body is modelled by the
  explicit RunOutcome.panicked constructor.
-/

namespace Yaui

/-! ### background_worker/src/lib.rs -/

/-- CallbackError from background_worker (thiserror enum). -/
inductive CallbackError where
  | invalidDataType
  | invalidStateType
  | callbackNotFound (id : Nat)
  | otherError (s : String)
deriving DecidableEq, Repr

/-- WorkerResult = Result of a boxed payload or a CallbackError; the boxed
any-payload is abstracted by a type parameter. -/
abbrev WorkerResult (β : Type) := Except CallbackError β

/-- One submission as it sits on the shared queue: kind index, payload and
the identity of its dedicated capacity-1 response channel. -/
structure Submission (β : Type) where
  kind : Nat
  payload : β
  chan : Nat

/-- The WorkSystem: the registered callback table (slots may be empty),
the shared state threaded through callback runs, the FIFO submission queue,
the multiset of messages delivered on response channels, the counter that
hands out fresh channel identities, and the registration id counter. -/
structure WorkSystem (β σ : Type) where
  callbacks : List (Option (β → σ → WorkerResult β × σ))
  shared_state : σ
  queue : List (Submission β)
  delivered : List (Nat × WorkerResult β)
  next_chan : Nat
  id_counter : Nat

/-- The check add_work performs: callbacks.get(id).is_some_and(is_some). -/
def isRegistered {β σ : Type} (cbs : List (Option (β → σ → WorkerResult β × σ)))
    (id : Nat) : Bool :=
  match cbs.get? id with
  | some (some _) => true
  | _ => false

/-- register_callback_with_state: take a fresh id from the counter, grow the
table with empty slots if needed, store the callback at that id. -/
def WorkSystem.register_callback_with_state {β σ : Type} (st : WorkSystem β σ)
    (cb : β → σ → WorkerResult β × σ) : Nat × WorkSystem β σ :=
  let id := st.id_counter
  let cbs :=
    if st.callbacks.length ≤ id then
      st.callbacks ++ List.replicate (id + 1 - st.callbacks.length) none
    else
      st.callbacks
  (id, { st with callbacks := cbs.set id (some cb), id_counter := st.id_counter + 1 })

/-- add_work: create the fresh capacity-1 response channel; if the kind is
registered, enqueue the submission; otherwise place a callbackNotFound
failure on the channel synchronously, before returning. Returns the
receiver (the channel identity) and the new system state. -/
def WorkSystem.add_work {β σ : Type} (st : WorkSystem β σ) (id : Nat) (data : β) :
    Nat × WorkSystem β σ :=
  let chan := st.next_chan
  if isRegistered st.callbacks id then
    (chan, { st with queue := st.queue ++ [⟨id, data, chan⟩], next_chan := st.next_chan + 1 })
  else
    (chan, { st with delivered := st.delivered ++ [(chan, .error (.callbackNotFound id))],
                     next_chan := st.next_chan + 1 })

/-- One iteration of the worker loop body: look up the callback for the
submission kind; run it under the lock if present, otherwise produce the
callbackNotFound failure. -/
def execJob {β σ : Type} (cbs : List (Option (β → σ → WorkerResult β × σ)))
    (state : σ) (s : Submission β) : WorkerResult β × σ :=
  match cbs.get? s.kind with
  | some (some cb) => cb s.payload state
  | _ => (.error (.callbackNotFound s.kind), state)

/-- The messages the workers send while draining the queue in FIFO order,
with the shared state threaded through (execution is serialized by the
shared-state mutex). -/
def execAll {β σ : Type} (cbs : List (Option (β → σ → WorkerResult β × σ))) :
    σ → List (Submission β) → List (Nat × WorkerResult β)
  | _, [] => []
  | state, s :: rest =>
    let r := execJob cbs state s
    (s.chan, r.1) :: execAll cbs r.2 rest

/-- The shared state after the workers drained the queue. -/
def execState {β σ : Type} (cbs : List (Option (β → σ → WorkerResult β × σ))) :
    σ → List (Submission β) → σ
  | state, [] => state
  | state, s :: rest => execState cbs (execJob cbs state s).2 rest

/-- Run the worker loop until the submission queue is empty. -/
def runQueue {β σ : Type} (st : WorkSystem β σ) : WorkSystem β σ :=
  { st with shared_state := execState st.callbacks st.shared_state st.queue,
            queue := [],
            delivered := st.delivered ++ execAll st.callbacks st.shared_state st.queue }

/-- The outcomes delivered on one given channel, in delivery order. -/
def outcomesOn {β : Type} (delivered : List (Nat × WorkerResult β)) (c : Nat) :
    List (WorkerResult β) :=
  (delivered.filter fun p => p.1 == c).map Prod.snd

theorem outcomesOn_append {β : Type} (a b : List (Nat × WorkerResult β)) (c : Nat) :
    outcomesOn (a ++ b) c = outcomesOn a c ++ outcomesOn b c := by
  simp [outcomesOn, List.filter_append]

theorem outcomesOn_nil_of_ne {β : Type} (d : List (Nat × WorkerResult β)) (c : Nat)
    (h : ∀ x ∈ d, x.1 ≠ c) : outcomesOn d c = [] := by
  induction d with
  | nil => rfl
  | cons x t ih =>
    have hx : (x.1 == c) = false := by
      simpa using h x (List.mem_cons_self x t)
    simp only [outcomesOn, List.filter_cons, hx, Bool.false_eq_true, if_false]
    exact ih fun y hy => h y (List.mem_cons_of_mem x hy)

theorem execAll_append {β σ : Type} (cbs : List (Option (β → σ → WorkerResult β × σ)))
    (q₁ q₂ : List (Submission β)) (state : σ) :
    execAll cbs state (q₁ ++ q₂)
      = execAll cbs state q₁ ++ execAll cbs (execState cbs state q₁) q₂ := by
  induction q₁ generalizing state with
  | nil => simp [execAll, execState]
  | cons s rest ih => simp [execAll, execState, ih]

theorem execAll_chans {β σ : Type} (cbs : List (Option (β → σ → WorkerResult β × σ)))
    (q : List (Submission β)) (state : σ) (c : Nat)
    (h : ∀ s ∈ q, s.chan ≠ c) : outcomesOn (execAll cbs state q) c = [] := by
  induction q generalizing state with
  | nil => rfl
  | cons s rest ih =>
    have hs : (s.chan == c) = false := by
      simpa using h s (List.mem_cons_self s rest)
    simp only [execAll, outcomesOn, List.filter_cons, hs, Bool.false_eq_true, if_false]
    exact ih _ (fun y hy => h y (List.mem_cons_of_mem s hy))

theorem outcomesOn_single {β σ : Type} (cbs : List (Option (β → σ → WorkerResult β × σ)))
    (state : σ) (s : Submission β) :
    outcomesOn (execAll cbs state [s]) s.chan = [(execJob cbs state s).1] := by
  simp [execAll, outcomesOn]

/-- Claim C3: for every registered job kind and payload, add_work yields
exactly one Outcome on the channel it returns — never zero, never more than
one — and no Outcome is delivered on the channel of a different submission;
the unique Outcome is the one produced by running the registered callback on
this very submission (after the previously queued jobs). The hypotheses say
that the pre-state is reachable: every queued submission and every already
delivered message uses a channel created earlier than the next fresh one. -/
theorem add_work_exactly_one_outcome {β σ : Type} (st : WorkSystem β σ) (id : Nat) (p : β)
    (hreg : isRegistered st.callbacks id = true)
    (hq : ∀ s ∈ st.queue, s.chan < st.next_chan)
    (hd : ∀ x ∈ st.delivered, x.1 < st.next_chan) :
    outcomesOn (runQueue (st.add_work id p).2).delivered (st.add_work id p).1
      = [(execJob st.callbacks (execState st.callbacks st.shared_state st.queue)
            ⟨id, p, st.next_chan⟩).1]
    ∧ ∀ s ∈ st.queue, s.chan ≠ (st.add_work id p).1 := by
  have hchan : (st.add_work id p).1 = st.next_chan := by
    simp [WorkSystem.add_work, hreg]
  have hstate : (st.add_work id p).2
      = { st with queue := st.queue ++ [⟨id, p, st.next_chan⟩],
                  next_chan := st.next_chan + 1 } := by
    simp [WorkSystem.add_work, hreg]
  constructor
  · rw [hchan, hstate]
    simp only [runQueue]
    rw [execAll_append, outcomesOn_append, outcomesOn_append]
    rw [outcomesOn_nil_of_ne st.delivered st.next_chan
        (fun x hx => Nat.ne_of_lt (hd x hx))]
    rw [execAll_chans st.callbacks st.queue st.shared_state st.next_chan
        (fun s hs => Nat.ne_of_lt (hq s hs))]
    rw [outcomesOn_single st.callbacks (execState st.callbacks st.shared_state st.queue)
        ⟨id, p, st.next_chan⟩]
    simp
  · intro s hs
    rw [hchan]
    exact Nat.ne_of_lt (hq s hs)

/-- Demonstration callback used by concrete witnesses: adds the payload to
the shared counter. -/
def wcb0 : Nat → Nat → WorkerResult Nat × Nat := fun p s => (.ok (p + s), s + 1)

/-- A concrete WorkSystem with one registered kind and nothing pending. -/
def wSt0 : WorkSystem Nat Nat :=
  { callbacks := [some wcb0], shared_state := 0, queue := [], delivered := [],
    next_chan := 0, id_counter := 1 }

theorem add_work_exactly_one_outcome_witness :
    outcomesOn (runQueue (wSt0.add_work 0 5).2).delivered (wSt0.add_work 0 5).1
      = [(execJob wSt0.callbacks (execState wSt0.callbacks wSt0.shared_state wSt0.queue)
            ⟨0, 5, wSt0.next_chan⟩).1]
    ∧ ∀ s ∈ wSt0.queue, s.chan ≠ (wSt0.add_work 0 5).1 :=
  add_work_exactly_one_outcome wSt0 0 5 rfl
    (by intro s hs; simp [wSt0] at hs) (by intro x hx; simp [wSt0] at hx)

/-- Claim C4: for a kind index that is not registered (out of range or an
empty slot), add_work places the callbackNotFound failure on the returned
channel synchronously, before it returns: the returned state already holds
the failure, the submission queue is untouched (so no worker thread and no
registered callback is ever involved with this submission), and the
callback table is unchanged. -/
theorem add_work_unregistered {β σ : Type} (st : WorkSystem β σ) (id : Nat) (p : β)
    (h : isRegistered st.callbacks id = false) :
    (st.add_work id p).2.delivered
        = st.delivered ++ [((st.add_work id p).1, .error (.callbackNotFound id))]
    ∧ (st.add_work id p).2.queue = st.queue
    ∧ (st.add_work id p).2.callbacks = st.callbacks := by
  refine ⟨?_, ?_, ?_⟩ <;> simp [WorkSystem.add_work, h]

/-- A concrete WorkSystem with an empty callback table. -/
def wSt1 : WorkSystem Nat Nat :=
  { callbacks := [], shared_state := 0, queue := [], delivered := [],
    next_chan := 7, id_counter := 0 }

theorem add_work_unregistered_witness :
    (wSt1.add_work 3 11).2.delivered
        = wSt1.delivered ++ [((wSt1.add_work 3 11).1, .error (.callbackNotFound 3))]
    ∧ (wSt1.add_work 3 11).2.queue = wSt1.queue
    ∧ (wSt1.add_work 3 11).2.callbacks = wSt1.callbacks :=
  add_work_unregistered wSt1 3 11 rfl

/-! ### api_test/src/font.rs -/

/-- FontHandle = u64. -/
abbrev FontHandle := Nat

/-- InternalError from api_test/src/internal_error.rs. -/
inductive InternalError where
  | ioError (s : String)
  | genericError (text : String)
deriving DecidableEq, Repr

/-- The message text of an InternalError. -/
def InternalError.text : InternalError → String
  | .ioError s => s
  | .genericError t => t

abbrev InternalResult (α : Type) := Except InternalError α

/-- Association list lookup, modelling HashMap::get. -/
def alookup {κ ν : Type} [DecidableEq κ] : List (κ × ν) → κ → Option ν
  | [], _ => none
  | (k, v) :: t, key => if k = key then some v else alookup t key

/-- Association list insert, modelling HashMap::insert (replace on equal key). -/
def ainsert {κ ν : Type} [DecidableEq κ] : List (κ × ν) → κ → ν → List (κ × ν)
  | [], key, v => [(key, v)]
  | (k, w) :: t, key, v =>
    if k = key then (key, v) :: t else (k, w) :: ainsert t key v

theorem alookup_ainsert_self {κ ν : Type} [DecidableEq κ] (m : List (κ × ν))
    (key : κ) (v : ν) : alookup (ainsert m key v) key = some v := by
  induction m with
  | nil => simp [alookup, ainsert]
  | cons p t ih =>
    by_cases h : p.1 = key <;> simp [alookup, ainsert, h, ih]

theorem alookup_ainsert_ne {κ ν : Type} [DecidableEq κ] (m : List (κ × ν))
    (key key2 : κ) (v : ν) (h : key ≠ key2) :
    alookup (ainsert m key v) key2 = alookup m key2 := by
  induction m with
  | nil => simp [alookup, ainsert, h]
  | cons p t ih =>
    by_cases hp : p.1 = key
    · have hpk : p.1 ≠ key2 := fun hk => absurd (hp.symm.trans hk) h
      simp [alookup, ainsert, hp, h, hpk]
    · simp [alookup, ainsert, hp, h, ih]

/-- Substring test on character lists: Rust str::contains. -/
def hasSub (hay needle : List Char) : Bool :=
  match hay with
  | [] => needle.isEmpty
  | _ :: t => needle.isPrefixOf hay || hasSub t needle

/-- font_path.contains(needle). -/
def strContains (hay needle : String) : Bool :=
  hasSub hay.toList needle.toList

/-- One face record of the cosmic_text font database (an external
collaborator): the attributes load_font reads off a loaded face.
Stretch, style and weight are modelled as their numeric codes. -/
structure Face where
  stretch : Nat
  style : Nat
  weight : Nat
  familyName : String
deriving DecidableEq, Repr

/-- cosmic_text Weight::EXTRA_LIGHT. -/
def extraLightWeight : Nat := 200

/-- cosmic_text Weight::NORMAL, the Attrs::new() default. -/
def normalWeight : Nat := 400

/-- cosmic_text Attrs, built by the builder methods below. -/
structure AttrsM where
  stretch : Nat
  style : Nat
  weight : Nat
  family : String
deriving DecidableEq, Repr

/-- Attrs::new() defaults: Stretch::Normal (code 5), Style::Normal (code 0),
Weight::NORMAL, the default family. -/
def AttrsM.new : AttrsM := ⟨5, 0, normalWeight, ""⟩

/-- Builder method .stretch(v). -/
def AttrsM.withStretch (a : AttrsM) (v : Nat) : AttrsM := { a with stretch := v }

/-- Builder method .style(v). -/
def AttrsM.withStyle (a : AttrsM) (v : Nat) : AttrsM := { a with style := v }

/-- Builder method .weight(v). -/
def AttrsM.withWeight (a : AttrsM) (v : Nat) : AttrsM := { a with weight := v }

/-- Builder method .family(v). -/
def AttrsM.withFamily (a : AttrsM) (v : String) : AttrsM := { a with family := v }

/-- The font database side of cosmic_text FontSystem, as an oracle:
load_font_source returns the face ids it added, face looks a face up. -/
structure FontDb where
  loadSource : String → List Nat
  face : Nat → Option Face

/-- FontInfo stored per font handle. -/
structure FontInfo where
  attrs : AttrsM
deriving DecidableEq, Repr

abbrev LoadedFonts := List (FontHandle × FontInfo)

/-- The Attrs value load_font builds for a face loaded from font_path:
Attrs::new().stretch(face.stretch).style(face.style).weight(face.weight)
.weight(weight).family(family_name), where weight is EXTRA_LIGHT when the
path contains "Thin" and the face weight otherwise (the second .weight call
overwrites the first). -/
def loadAttrs (font_path : String) (face : Face) : AttrsM :=
  let weight := if strContains font_path "Thin" then extraLightWeight else face.weight
  ((((AttrsM.new.withStretch face.stretch).withStyle face.style).withWeight
      face.weight).withWeight weight).withFamily face.familyName

/-- load_font (the free function, font.rs lines 123-165): load the source
into the database, take the last returned face id (error if none), look the
face up (error if missing), build the attrs and register them under the
given handle. Returns the updated registry in place of the &mut argument. -/
def load_font (db : FontDb) (id : FontHandle) (font_path : String)
    (loaded_fonts : LoadedFonts) : InternalResult LoadedFonts :=
  let ids := db.loadSource font_path
  match ids.getLast? with
  | none => .error (.genericError ("Font id not found for font " ++ font_path))
  | some face_id =>
    match db.face face_id with
    | none => .error (.genericError ("Font face not found for font " ++ font_path))
    | some face => .ok (ainsert loaded_fonts id ⟨loadAttrs font_path face⟩)

/-- One layout run, as produced by cosmic_text Buffer::layout_runs. -/
structure LayoutRun where
  lineW : ℚ
  lineHeight : ℚ
deriving DecidableEq

/-- The cosmic_text shaping oracle: text, attrs, font size and line height
determine the layout runs of the shaped buffer. -/
abbrev RunsOracle := String → AttrsM → Nat → ℚ → List LayoutRun

/-- measure_string_size (font.rs lines 167-203): shape the text, then fold
the layout runs, width as the maximum line width and height as the sum of
line heights; always returns Some. -/
def measure_string_size (runs : RunsOracle) (text : String) (font_info : FontInfo)
    (font_size : Nat) (line_height : ℚ) : Option (ℚ × ℚ) :=
  let rs := runs text font_info.attrs font_size line_height
  some (rs.foldl (fun acc run => (max acc.1 run.lineW, acc.2 + run.lineHeight)) (0, 0))

/-- GeneratorConfig, the cache key: font handle, text, size, sub-pixel
steps in x and y. Structural equality, map semantics. -/
structure GeneratorConfig where
  font_handle : FontHandle
  text : String
  size : Nat
  sub_pixel_steps_x : Nat
  sub_pixel_steps_y : Nat
deriving DecidableEq, Repr

/-- CachedString, the cached artifact: pixel data (the Pixmap content,
abstracted to a list of pixel values), the identifier assigned at
promotion, stride, width, height and the sub-pixel steps. -/
structure CachedString where
  data : List Nat
  id : Nat
  stride : Nat
  width : Nat
  height : Nat
  sub_pixel_step_x : Nat
  sub_pixel_step_y : Nat
deriving DecidableEq, Repr

/-- The rasterization side of the external backend, as an oracle: layout
runs of the shaped buffer, and the pixel buffer Buffer::draw fills for a
given width and height. -/
structure Raster where
  layoutRuns : RunsOracle
  draw : String → AttrsM → Nat → ℚ → Nat → Nat → List Nat

/-- generate_text (font.rs lines 206-281): shape the text, fold the layout
runs into a bounding box, truncate to integer width and height (the `as
usize` casts), draw the pixmap, and return a CachedString whose stride
equals the width, whose sub-pixel steps are 1 and whose id is the
placeholder 0. Never fails. -/
def generate_text (rz : Raster) (text : String) (font_info : FontInfo)
    (font_size : Nat) (line_height : ℚ) : WorkerResult CachedString :=
  let rs := rz.layoutRuns text font_info.attrs font_size line_height
  let wh := rs.foldl (fun acc run => (max acc.1 run.lineW, acc.2 + run.lineHeight)) ((0 : ℚ), (0 : ℚ))
  let width := (⌊wh.1⌋).toNat
  let height := (⌊wh.2⌋).toNat
  .ok { data := rz.draw text font_info.attrs font_size line_height width height,
        stride := width, width := width, height := height,
        sub_pixel_step_x := 1, sub_pixel_step_y := 1, id := 0 }

/-- The worker-side shared AsyncState (the parts the embedded code reads
and writes; the FontSystem and SwashCache live in the oracles). -/
structure AsyncState where
  loaded_fonts : LoadedFonts
deriving DecidableEq

/-- The payload of an asynchronous load-font job. -/
structure LoadConfig where
  font_id : FontHandle
  font_path : String
deriving DecidableEq, Repr

/-- The result of running a job body: either it completes with a value, or
it aborts the worker thread with a Rust panic message. -/
inductive RunOutcome (α : Type) where
  | done : α → RunOutcome α
  | panicked : String → RunOutcome α
deriving DecidableEq

/-- job_generate_text (font.rs lines 284-301): look the font handle up in
the worker-side registry; on a hit run generate_text with line height
size * 1.1; on a miss the body executes panic!("Font not found"). -/
def job_generate_text (rz : Raster) (st : AsyncState) (cfg : GeneratorConfig) :
    RunOutcome (WorkerResult CachedString) :=
  match alookup st.loaded_fonts cfg.font_handle with
  | some font =>
    .done (generate_text rz cfg.text font cfg.size ((cfg.size : ℚ) * (11 / 10)))
  | none => .panicked "Font not found"

/-- job_load_font (font.rs lines 303-319): run load_font against the
worker-side registry and call unwrap on the result, so a load failure
aborts the worker thread with a panic; on success the job returns Ok(()). -/
def job_load_font (db : FontDb) (st : AsyncState) (cfg : LoadConfig) :
    RunOutcome (WorkerResult Unit × AsyncState) :=
  match load_font db cfg.font_id cfg.font_path st.loaded_fonts with
  | .ok m => .done (.ok (), { st with loaded_fonts := m })
  | .error e => .panicked e.text

/-- A submission the TextGenerator hands to the WorkSystem, with its typed
payload (the kind indices load_font_async_id and gen_text_async_id are the
two registrations made in TextGenerator::new). -/
inductive SubmittedJob where
  | loadFont (cfg : LoadConfig)
  | genText (cfg : GeneratorConfig)
deriving DecidableEq, Repr

/-- An InflightGeneration: its cache key and its capacity-1 receiver,
modelled by the current channel content (none when try_recv would find no
message: the job is still running, or its single message was consumed by an
earlier update call). -/
structure InflightGeneration where
  config : GeneratorConfig
  chan : Option (WorkerResult CachedString)

/-- The TextGenerator state: the artifact cache, the synchronous
measurement registry, the pending generations, and the two monotonic
counters (font handles and artifact identifiers). -/
structure TextGenerator where
  cached_strings : List (GeneratorConfig × CachedString)
  sync_loaded_fonts : LoadedFonts
  inflight_text_generations : List InflightGeneration
  font_id_counter : Nat
  text_buffers_id : Nat

/-- TextGenerator::new: empty cache, empty registries, both counters at 1. -/
def TextGenerator.new : TextGenerator :=
  { cached_strings := [], sync_loaded_fonts := [], inflight_text_generations := [],
    font_id_counter := 1, text_buffers_id := 1 }

/-- TextGenerator::load_font: take the next handle from the counter, load
the font synchronously into the measurement registry (the ? operator
returns the error with the generator unchanged and nothing submitted), then
submit the asynchronous load-font job with the same handle and path, bump
the counter and return the handle. The third component lists the jobs
handed to the WorkSystem by this call. -/
def TextGenerator.load_font (db : FontDb) (tg : TextGenerator) (path : String) :
    InternalResult FontHandle × TextGenerator × List SubmittedJob :=
  let font_id := tg.font_id_counter
  match Yaui.load_font db font_id path tg.sync_loaded_fonts with
  | .error e => (.error e, tg, [])
  | .ok fonts =>
    (.ok font_id,
     { tg with sync_loaded_fonts := fonts, font_id_counter := tg.font_id_counter + 1 },
     [.loadFont ⟨font_id, path⟩])

/-- TextGenerator::measure_text_size: look the handle up in the synchronous
registry only; absent gives None (not an error), present shapes via
measure_string_size with line height size * 1.1. The generator state is
returned unchanged and no job is submitted. -/
def TextGenerator.measure_text_size (runs : RunsOracle) (tg : TextGenerator)
    (text : String) (font_id : FontHandle) (font_size : Nat) :
    Option (ℚ × ℚ) × TextGenerator × List SubmittedJob :=
  match alookup tg.sync_loaded_fonts font_id with
  | some font_info =>
    (measure_string_size runs text font_info font_size ((font_size : ℚ) * (11 / 10)), tg, [])
  | none => (none, tg, [])

/-- TextGenerator::queue_generate_text: build the cache key (sub-pixel
steps fixed at 1); on a cache hit return the clone of the cached artifact
with no submission; otherwise submit a generate-text job, record a new
InflightGeneration holding the returned receiver (initially empty), and
return None. There is no check against the in-flight list. -/
def TextGenerator.queue_generate_text (tg : TextGenerator) (text : String)
    (size : Nat) (font_id : FontHandle) :
    Option CachedString × TextGenerator × List SubmittedJob :=
  let gen_config : GeneratorConfig :=
    { font_handle := font_id, text := text, size := size,
      sub_pixel_steps_x := 1, sub_pixel_steps_y := 1 }
  match alookup tg.cached_strings gen_config with
  | some cached_string => (some cached_string, tg, [])
  | none =>
    (none,
     { tg with inflight_text_generations :=
         tg.inflight_text_generations ++ [⟨gen_config, none⟩] },
     [.genText gen_config])

/-- The result of the update drain loop, together with a log of every
cached_strings.insert call it performed (key and inserted artifact). -/
structure UpdateResult where
  inflight : List InflightGeneration
  cached : List (GeneratorConfig × CachedString)
  text_buffers_id : Nat
  insertLog : List (GeneratorConfig × CachedString)

/-- The loop body of TextGenerator::update, fuel-indexed because the Rust
loop need not terminate. While i < len: try_recv on entry i. If the channel
has no message, nothing in the body runs and i is left unchanged, so the
loop repeats the same iteration. On a ready Ok artifact, its id field is
overwritten with the current text_buffers_id, it is inserted into the cache
under the entry key, the entry is removed and the counter is bumped. On a
ready Err, the message is consumed (the channel is left empty), the entry
stays and i advances. Returns none when the fuel runs out. -/
def updateLoop (fuel i : Nat) (infl : List InflightGeneration)
    (cache : List (GeneratorConfig × CachedString)) (ctr : Nat)
    (log : List (GeneratorConfig × CachedString)) : Option UpdateResult :=
  match fuel with
  | 0 => none
  | fuel + 1 =>
    if h : i < infl.length then
      let e := infl.get ⟨i, h⟩
      match e.chan with
      | none => updateLoop fuel i infl cache ctr log
      | some (.ok data) =>
        let promoted := { data with id := ctr }
        updateLoop fuel i (infl.eraseIdx i) (ainsert cache e.config promoted)
          (ctr + 1) (log ++ [(e.config, promoted)])
      | some (.error _) =>
        updateLoop fuel (i + 1) (infl.set i { e with chan := none }) cache ctr log
    else
      some ⟨infl, cache, ctr, log⟩

/-- TextGenerator::update: run the drain loop from i = 0; none means the
fuel ran out, that is, the Rust loop was still running. -/
def TextGenerator.update (fuel : Nat) (tg : TextGenerator) : Option TextGenerator :=
  match updateLoop fuel 0 tg.inflight_text_generations tg.cached_strings
      tg.text_buffers_id [] with
  | none => none
  | some r =>
    some { tg with inflight_text_generations := r.inflight,
                   cached_strings := r.cached,
                   text_buffers_id := r.text_buffers_id }

/-- TextGenerator::get_text: a pure probe of the cache under the same key
construction as queue_generate_text. -/
def TextGenerator.get_text (tg : TextGenerator) (text : String) (size : Nat)
    (font_id : FontHandle) : Option CachedString :=
  alookup tg.cached_strings
    { font_handle := font_id, text := text, size := size,
      sub_pixel_steps_x := 1, sub_pixel_steps_y := 1 }

theorem load_font_ok_inv (db : FontDb) (id : FontHandle) (path : String)
    (m m2 : LoadedFonts) (h : load_font db id path m = .ok m2) :
    ∃ faceId face, (db.loadSource path).getLast? = some faceId ∧
      db.face faceId = some face ∧ m2 = ainsert m id ⟨loadAttrs path face⟩ := by
  unfold load_font at h
  cases hg : (db.loadSource path).getLast? with
  | none => simp [hg] at h
  | some faceId =>
    cases hf : db.face faceId with
    | none => simp [hg, hf] at h
    | some face =>
      simp only [hg, hf, Except.ok.injEq] at h
      exact ⟨faceId, face, rfl, hf, h.symm⟩

/-- Claim C5: TextGenerator::load_font is atomic on failure and
handle-consistent on success. On failure it returns the error, the
generator is unchanged (in particular the font handle counter), no handle
is issued and no asynchronous job is submitted. On success the returned
handle, the handle registered in the synchronous measurement registry and
the handle carried by the asynchronous load-font job are all the prior
counter value, chosen before either registration, and the counter is then
bumped. -/
theorem load_font_atomic (db : FontDb) (tg : TextGenerator) (path : String) :
    (∀ e, (TextGenerator.load_font db tg path).1 = .error e →
      (TextGenerator.load_font db tg path).2.1 = tg ∧
      (TextGenerator.load_font db tg path).2.2 = []) ∧
    (∀ h, (TextGenerator.load_font db tg path).1 = .ok h →
      h = tg.font_id_counter ∧
      (TextGenerator.load_font db tg path).2.1.font_id_counter = tg.font_id_counter + 1 ∧
      (TextGenerator.load_font db tg path).2.2 = [.loadFont ⟨h, path⟩] ∧
      ∃ fi, alookup (TextGenerator.load_font db tg path).2.1.sync_loaded_fonts h = some fi) := by
  cases hl : Yaui.load_font db tg.font_id_counter path tg.sync_loaded_fonts with
  | error e =>
    constructor
    · intro e2 _; constructor <;> simp [TextGenerator.load_font, hl]
    · intro h hok
      rw [show (TextGenerator.load_font db tg path).1
            = .error e by simp [TextGenerator.load_font, hl]] at hok
      cases hok
  | ok fonts =>
    constructor
    · intro e2 herr
      rw [show (TextGenerator.load_font db tg path).1
            = .ok tg.font_id_counter by simp [TextGenerator.load_font, hl]] at herr
      cases herr
    · intro h hok
      rw [show (TextGenerator.load_font db tg path).1
            = .ok tg.font_id_counter by simp [TextGenerator.load_font, hl]] at hok
      cases hok
      obtain ⟨faceId, face, _, _, hm⟩ := load_font_ok_inv db tg.font_id_counter path
        tg.sync_loaded_fonts fonts hl
      refine ⟨rfl, ?_, ?_, ⟨⟨loadAttrs path face⟩, ?_⟩⟩
      · simp [TextGenerator.load_font, hl]
      · simp [TextGenerator.load_font, hl]
      · rw [show (TextGenerator.load_font db tg path).2.1.sync_loaded_fonts
              = fonts by simp [TextGenerator.load_font, hl]]
        rw [hm]
        exact alookup_ainsert_self tg.sync_loaded_fonts tg.font_id_counter ⟨loadAttrs path face⟩

/-- A database in which no path loads any face. -/
def dbEmpty : FontDb := ⟨fun _ => [], fun _ => none⟩

/-- A single concrete face: normal stretch, style and weight. -/
def face0 : Face := ⟨5, 0, 400, "Roboto"⟩

/-- A database in which every path loads face0 under face id 0. -/
def dbOk : FontDb := ⟨fun _ => [0], fun _ => some face0⟩

theorem load_font_atomic_witness :
    ((TextGenerator.load_font dbEmpty TextGenerator.new "a.ttf").2.1 = TextGenerator.new ∧
     (TextGenerator.load_font dbEmpty TextGenerator.new "a.ttf").2.2 = []) ∧
    (1 = TextGenerator.new.font_id_counter ∧
     (TextGenerator.load_font dbOk TextGenerator.new "a.ttf").2.1.font_id_counter
        = TextGenerator.new.font_id_counter + 1 ∧
     (TextGenerator.load_font dbOk TextGenerator.new "a.ttf").2.2 = [.loadFont ⟨1, "a.ttf"⟩] ∧
     ∃ fi, alookup (TextGenerator.load_font dbOk TextGenerator.new "a.ttf").2.1.sync_loaded_fonts 1
        = some fi) :=
  ⟨(load_font_atomic dbEmpty TextGenerator.new "a.ttf").1
      (.genericError ("Font id not found for font " ++ "a.ttf")) rfl,
   (load_font_atomic dbOk TextGenerator.new "a.ttf").2 1 rfl⟩

/-- Claim C10: when the loaded path contains the substring "Thin",
load_font registers the font with weight EXTRA_LIGHT instead of the weight
declared by the face (the second .weight builder call overwrites the
first); for any other path the face weight is registered. The registered
FontInfo is a function of the database and the path alone, so the
synchronous registration in TextGenerator::load_font and the asynchronous
one in job_load_font, which run the same routine, apply the override
identically whatever registry and handle they use. -/
theorem load_font_thin_weight_override (db : FontDb) (fid : FontHandle) (path : String)
    (fonts : LoadedFonts) (faceId : Nat) (face : Face)
    (hids : (db.loadSource path).getLast? = some faceId)
    (hface : db.face faceId = some face) :
    load_font db fid path fonts = .ok (ainsert fonts fid ⟨loadAttrs path face⟩) ∧
    (loadAttrs path face).weight
      = (if strContains path "Thin" then extraLightWeight else face.weight) ∧
    ∀ fid2 fonts2, load_font db fid2 path fonts2
        = .ok (ainsert fonts2 fid2 ⟨loadAttrs path face⟩) := by
  refine ⟨?_, ?_, fun fid2 fonts2 => ?_⟩
  · simp [load_font, hids, hface]
  · simp [loadAttrs, AttrsM.withStretch, AttrsM.withStyle, AttrsM.withWeight,
      AttrsM.withFamily]
  · simp [load_font, hids, hface]

/-- A database that loads a thin face under every path. -/
def dbThin : FontDb := ⟨fun _ => [4], fun _ => some ⟨5, 0, 100, "Roboto Thin"⟩⟩

theorem load_font_thin_weight_override_witness :
    load_font dbThin 1 "Roboto-Thin.ttf" []
        = .ok (ainsert [] 1 ⟨loadAttrs "Roboto-Thin.ttf" ⟨5, 0, 100, "Roboto Thin"⟩⟩) ∧
    (loadAttrs "Roboto-Thin.ttf" ⟨5, 0, 100, "Roboto Thin"⟩).weight
      = (if strContains "Roboto-Thin.ttf" "Thin" then extraLightWeight
         else (⟨5, 0, 100, "Roboto Thin"⟩ : Face).weight) ∧
    ∀ fid2 fonts2, load_font dbThin fid2 "Roboto-Thin.ttf" fonts2
        = .ok (ainsert fonts2 fid2 ⟨loadAttrs "Roboto-Thin.ttf" ⟨5, 0, 100, "Roboto Thin"⟩⟩) :=
  load_font_thin_weight_override dbThin 1 "Roboto-Thin.ttf" [] 4
    ⟨5, 0, 100, "Roboto Thin"⟩ rfl rfl

/-- Claim C8: measure_text_size answers from the synchronous registry only:
a handle absent from it gives None, a non-error outcome; a present handle
shapes the text through measure_string_size with line height 1.1 times the
requested size and always returns a measured bounding box. In both cases
the generator state is unchanged and no job reaches the worker pool. -/
theorem measure_text_size_sync (runs : RunsOracle) (tg : TextGenerator)
    (text : String) (font_id : FontHandle) (font_size : Nat) :
    (alookup tg.sync_loaded_fonts font_id = none →
      TextGenerator.measure_text_size runs tg text font_id font_size = (none, tg, [])) ∧
    (∀ fi, alookup tg.sync_loaded_fonts font_id = some fi →
      TextGenerator.measure_text_size runs tg text font_id font_size
        = (measure_string_size runs text fi font_size ((font_size : ℚ) * (11 / 10)), tg, []) ∧
      (measure_string_size runs text fi font_size ((font_size : ℚ) * (11 / 10))).isSome
        = true) := by
  constructor
  · intro h; simp [TextGenerator.measure_text_size, h]
  · intro fi h
    constructor
    · simp [TextGenerator.measure_text_size, h]
    · simp [measure_string_size]

/-- A shaping oracle that produces no layout runs. -/
def runs0 : RunsOracle := fun _ _ _ _ => []

/-- A concrete FontInfo with default attrs. -/
def fi0 : FontInfo := ⟨AttrsM.new⟩

/-- A generator whose synchronous registry holds fi0 under handle 1. -/
def tgM : TextGenerator := { TextGenerator.new with sync_loaded_fonts := [(1, fi0)] }

theorem measure_text_size_sync_witness :
    TextGenerator.measure_text_size runs0 TextGenerator.new "Hi" 1 16
        = (none, TextGenerator.new, []) ∧
    (TextGenerator.measure_text_size runs0 tgM "Hi" 1 16
        = (measure_string_size runs0 "Hi" fi0 16 ((16 : ℚ) * (11 / 10)), tgM, []) ∧
     (measure_string_size runs0 "Hi" fi0 16 ((16 : ℚ) * (11 / 10))).isSome = true) :=
  ⟨(measure_text_size_sync runs0 TextGenerator.new "Hi" 1 16).1 rfl,
   (measure_text_size_sync runs0 tgM "Hi" 1 16).2 fi0 rfl⟩

/-- A rasterizer oracle producing no runs and no pixels. -/
def rz0 : Raster := ⟨fun _ _ _ _ => [], fun _ _ _ _ _ _ => []⟩

/-- The cache key for text "Hi" at size 16 under font handle 1. -/
def cfgHi : GeneratorConfig := ⟨1, "Hi", 16, 1, 1⟩

/-- Claim C6 counterexample: the worker callbacks do not turn every failure
into an error Outcome. A generate-text job whose font handle is absent from
the worker registry executes panic!("Font not found") and a load-font job
whose path resolves to no face calls unwrap on an Err, so both abort the
worker thread instead of delivering an error Outcome on the channel. -/
theorem worker_jobs_panic_cex :
    job_generate_text rz0 ⟨[]⟩ cfgHi = .panicked "Font not found" ∧
    job_load_font dbEmpty ⟨[]⟩ ⟨1, "bad.ttf"⟩
      = .panicked ("Font id not found for font " ++ "bad.ttf") :=
  ⟨rfl, rfl⟩

/-- Claim C6 amended: a render-text job whose font handle is not yet in the
worker registry aborts the worker thread with the panic "Font not found"
(it does not produce an error Outcome), and a load-font job whose path does
not resolve to a usable face aborts with the unwrap panic carrying the load
error text; no registered callback converts these faults into error
Outcomes. -/
theorem worker_jobs_abort_on_failure (rz : Raster) (db : FontDb) (st : AsyncState)
    (cfg : GeneratorConfig) (lc : LoadConfig) (err : InternalError)
    (hfont : alookup st.loaded_fonts cfg.font_handle = none)
    (hload : load_font db lc.font_id lc.font_path st.loaded_fonts = .error err) :
    job_generate_text rz st cfg = .panicked "Font not found" ∧
    job_load_font db st lc = .panicked err.text := by
  constructor
  · simp [job_generate_text, hfont]
  · simp [job_load_font, hload]

theorem worker_jobs_abort_on_failure_witness :
    job_generate_text rz0 ⟨[]⟩ cfgHi = .panicked "Font not found" ∧
    job_load_font dbEmpty ⟨[]⟩ ⟨1, "bad2.ttf"⟩
      = .panicked (InternalError.genericError
          ("Font id not found for font " ++ "bad2.ttf")).text :=
  worker_jobs_abort_on_failure rz0 dbEmpty ⟨[]⟩ cfgHi ⟨1, "bad2.ttf"⟩
    (.genericError ("Font id not found for font " ++ "bad2.ttf")) rfl rfl

/-- Claim C1 counterexample: queue_generate_text checks only the cache, not
the in-flight list. Starting from a fresh generator, two calls with
identical arguments before the first outcome is drained both return None
and both submit a generate-text job: two underlying submissions for one
CacheKey, not one. -/
theorem queue_generate_text_dedup_cex :
    (TextGenerator.new.queue_generate_text "Hi" 16 1).1 = none ∧
    ((TextGenerator.new.queue_generate_text "Hi" 16 1).2.1.queue_generate_text
        "Hi" 16 1).1 = none ∧
    ((TextGenerator.new.queue_generate_text "Hi" 16 1).2.2 ++
      ((TextGenerator.new.queue_generate_text "Hi" 16 1).2.1.queue_generate_text
          "Hi" 16 1).2.2).length = 2 :=
  ⟨rfl, rfl, rfl⟩

/-- Claim C1 amended: while a CacheKey is not yet cached, every
queue_generate_text call with those arguments returns None and submits one
more generate-text job, recording one more InflightGeneration; in
particular a second call made before the first resolves submits a second
job for the same key (there is no in-flight deduplication; only a cache hit
prevents a submission). -/
theorem queue_generate_text_submits_per_call (tg : TextGenerator) (text : String)
    (size : Nat) (font_id : FontHandle)
    (h : alookup tg.cached_strings ⟨font_id, text, size, 1, 1⟩ = none) :
    (tg.queue_generate_text text size font_id).1 = none ∧
    (tg.queue_generate_text text size font_id).2.2
      = [.genText ⟨font_id, text, size, 1, 1⟩] ∧
    ((tg.queue_generate_text text size font_id).2.1.queue_generate_text
        text size font_id).1 = none ∧
    ((tg.queue_generate_text text size font_id).2.1.queue_generate_text
        text size font_id).2.2 = [.genText ⟨font_id, text, size, 1, 1⟩] ∧
    ((tg.queue_generate_text text size font_id).2.1.queue_generate_text
        text size font_id).2.1.inflight_text_generations.length
      = tg.inflight_text_generations.length + 2 := by
  refine ⟨?_, ?_, ?_, ?_, ?_⟩ <;>
    simp [TextGenerator.queue_generate_text, h]

theorem queue_generate_text_submits_per_call_witness :
    (TextGenerator.new.queue_generate_text "Hi" 16 1).1 = none ∧
    (TextGenerator.new.queue_generate_text "Hi" 16 1).2.2
      = [.genText ⟨1, "Hi", 16, 1, 1⟩] ∧
    ((TextGenerator.new.queue_generate_text "Hi" 16 1).2.1.queue_generate_text
        "Hi" 16 1).1 = none ∧
    ((TextGenerator.new.queue_generate_text "Hi" 16 1).2.1.queue_generate_text
        "Hi" 16 1).2.2 = [.genText ⟨1, "Hi", 16, 1, 1⟩] ∧
    ((TextGenerator.new.queue_generate_text "Hi" 16 1).2.1.queue_generate_text
        "Hi" 16 1).2.1.inflight_text_generations.length
      = TextGenerator.new.inflight_text_generations.length + 2 :=
  queue_generate_text_submits_per_call TextGenerator.new "Hi" 16 1 rfl

theorem updateLoop_stuck (fuel : Nat) :
    ∀ (i : Nat) (infl : List InflightGeneration)
      (cache : List (GeneratorConfig × CachedString)) (ctr : Nat)
      (log : List (GeneratorConfig × CachedString)) (h : i < infl.length),
      (infl.get ⟨i, h⟩).chan = none →
      updateLoop fuel i infl cache ctr log = none := by
  induction fuel with
  | zero => intro i infl cache ctr log h hc; rfl
  | succ fuel ih =>
    intro i infl cache ctr log h hc
    unfold updateLoop
    rw [dif_pos h]
    simp only [hc]
    exact ih i infl cache ctr log h hc

/-- Claim C2, the code bug: the drain loop in TextGenerator::update does
not advance i when try_recv finds no ready message, so whenever the
in-flight list holds an entry whose channel is empty — a job still running,
or a failed generation whose single error message was consumed by an
earlier update call — the loop spins on that entry forever instead of
leaving it for a later cycle: no amount of fuel makes it return. -/
theorem update_never_terminates_on_pending (fuel : Nat) (cfg : GeneratorConfig)
    (tg : TextGenerator) :
    TextGenerator.update fuel
      { tg with inflight_text_generations :=
          ⟨cfg, none⟩ :: tg.inflight_text_generations } = none := by
  have h : 0 < (⟨cfg, none⟩ :: tg.inflight_text_generations :
      List InflightGeneration).length := Nat.succ_pos _
  have hs := updateLoop_stuck fuel 0 (⟨cfg, none⟩ :: tg.inflight_text_generations)
    tg.cached_strings tg.text_buffers_id [] h rfl
  simp [TextGenerator.update, hs]

theorem updateLoop_preserves_other_keys (K : GeneratorConfig) (fuel : Nat) :
    ∀ (i : Nat) (infl : List InflightGeneration)
      (cache : List (GeneratorConfig × CachedString)) (ctr : Nat)
      (log : List (GeneratorConfig × CachedString)) (r : UpdateResult),
      (∀ e ∈ infl, e.config ≠ K) →
      updateLoop fuel i infl cache ctr log = some r →
      alookup r.cached K = alookup cache K := by
  induction fuel with
  | zero =>
    intro i infl cache ctr log r hne h
    exact absurd h (by simp [updateLoop])
  | succ fuel ih =>
    intro i infl cache ctr log r hne h
    unfold updateLoop at h
    by_cases hi : i < infl.length
    · rw [dif_pos hi] at h
      cases hc : (infl.get ⟨i, hi⟩).chan with
      | none =>
        simp only [hc] at h
        exact ih i infl cache ctr log r hne h
      | some res =>
        cases res with
        | ok data =>
          simp only [hc] at h
          have hmem : ∀ e ∈ infl.eraseIdx i, e.config ≠ K :=
            fun e he => hne e ((List.eraseIdx_sublist infl i).subset he)
          have htail := ih i (infl.eraseIdx i)
            (ainsert cache (infl.get ⟨i, hi⟩).config { data with id := ctr })
            (ctr + 1) (log ++ [((infl.get ⟨i, hi⟩).config, { data with id := ctr })])
            r hmem h
          rw [htail]
          exact alookup_ainsert_ne cache ((infl.get ⟨i, hi⟩).config) K
            { data with id := ctr } (hne (infl.get ⟨i, hi⟩) (List.get_mem infl i hi))
        | error err =>
          simp only [hc] at h
          have hmem : ∀ e ∈ infl.set i { infl.get ⟨i, hi⟩ with chan := none },
              e.config ≠ K := by
            intro e he
            rcases List.mem_or_eq_of_mem_set he with hmem2 | heq
            · exact hne e hmem2
            · rw [heq]
              exact hne (infl.get ⟨i, hi⟩) (List.get_mem infl i hi)
          exact ih (i + 1) (infl.set i { infl.get ⟨i, hi⟩ with chan := none })
            cache ctr log r hmem h
    · rw [dif_neg hi] at h
      cases h
      rfl

/-- The placeholder artifact a worker delivers: note id = 0. -/
def csPlaceholder : CachedString := ⟨[7], 0, 1, 1, 1, 1, 1⟩

/-- Model of the workers completing every pending job with artifact cs: the
capacity-1 channel of every in-flight entry now holds Ok(cs). -/
def deliverOk (cs : CachedString) (infl : List InflightGeneration) :
    List InflightGeneration :=
  infl.map fun e => { e with chan := some (.ok cs) }

/-- A fresh generator after two queue_generate_text calls for the same key. -/
def tgTwoQueued : TextGenerator :=
  ((TextGenerator.new.queue_generate_text "Hi" 16 1).2.1.queue_generate_text
      "Hi" 16 1).2.1

/-- tgTwoQueued once both duplicate jobs have completed. -/
def tgDelivered : TextGenerator :=
  { tgTwoQueued with
    inflight_text_generations := deliverOk csPlaceholder tgTwoQueued.inflight_text_generations }

/-- Claim C7 counterexample: Cached is not terminal. After two
queue_generate_text calls for the key (font 1, "Hi", 16) both complete, the
drain loop performs two cache insertions for that one key: the first
promotion caches the artifact with identifier 1, and the promotion of the
duplicate in-flight request then replaces that entry with a fresh artifact
carrying identifier 2, which is what every later lookup returns. -/
theorem cached_entry_replaced_cex :
    (updateLoop 8 0 tgDelivered.inflight_text_generations tgDelivered.cached_strings
        tgDelivered.text_buffers_id []).map
      (fun r => (r.insertLog, alookup r.cached cfgHi))
      = some ([(cfgHi, { csPlaceholder with id := 1 }),
               (cfgHi, { csPlaceholder with id := 2 })],
              some { csPlaceholder with id := 2 }) := by
  decide

/-- Claim C7 amended: a cached entry is stable under every operation except
the promotion of a duplicate in-flight request for the same key. If the key
is cached and no in-flight entry carries that key, queue_generate_text
returns the cached artifact unchanged without submitting any job, get_text
returns the same artifact, and any terminating update leaves the entry
untouched, so identifier and pixel content stay the same. -/
theorem cached_key_terminal_without_duplicate (tg : TextGenerator) (text : String)
    (size : Nat) (font_id : FontHandle) (cs : CachedString) (fuel : Nat)
    (tg' : TextGenerator)
    (hc : alookup tg.cached_strings ⟨font_id, text, size, 1, 1⟩ = some cs)
    (hni : ∀ e ∈ tg.inflight_text_generations, e.config ≠ ⟨font_id, text, size, 1, 1⟩)
    (hu : tg.update fuel = some tg') :
    tg.queue_generate_text text size font_id = (some cs, tg, []) ∧
    tg.get_text text size font_id = some cs ∧
    alookup tg'.cached_strings ⟨font_id, text, size, 1, 1⟩ = some cs := by
  refine ⟨?_, ?_, ?_⟩
  · simp [TextGenerator.queue_generate_text, hc]
  · simp [TextGenerator.get_text, hc]
  · unfold TextGenerator.update at hu
    cases hr : updateLoop fuel 0 tg.inflight_text_generations tg.cached_strings
        tg.text_buffers_id [] with
    | none => rw [hr] at hu; cases hu
    | some r =>
      rw [hr] at hu
      cases hu
      have hp := updateLoop_preserves_other_keys ⟨font_id, text, size, 1, 1⟩ fuel 0
        tg.inflight_text_generations tg.cached_strings tg.text_buffers_id [] r hni hr
      exact hp.trans hc

/-- The artifact cached under cfgHi in the concrete witness generator. -/
def cs1 : CachedString := { csPlaceholder with id := 1 }

/-- A generator whose cache holds cs1 under cfgHi, with nothing in flight. -/
def tgCached : TextGenerator :=
  { TextGenerator.new with cached_strings := [(cfgHi, cs1)] }

theorem cached_key_terminal_without_duplicate_witness :
    tgCached.queue_generate_text "Hi" 16 1 = (some cs1, tgCached, []) ∧
    tgCached.get_text "Hi" 16 1 = some cs1 ∧
    alookup tgCached.cached_strings ⟨1, "Hi", 16, 1, 1⟩ = some cs1 :=
  cached_key_terminal_without_duplicate tgCached "Hi" 16 1 cs1 1 tgCached rfl
    (by intro e he; simp [tgCached, TextGenerator.new] at he) rfl

theorem updateLoop_log_ids (fuel : Nat) :
    ∀ (i : Nat) (infl : List InflightGeneration)
      (cache : List (GeneratorConfig × CachedString)) (ctr : Nat)
      (log : List (GeneratorConfig × CachedString)) (r : UpdateResult),
      updateLoop fuel i infl cache ctr log = some r →
      ∃ np : List (GeneratorConfig × CachedString),
        r.insertLog = log ++ np ∧
        np.map (fun x => x.2.id) = List.range' ctr np.length ∧
        r.text_buffers_id = ctr + np.length := by
  induction fuel with
  | zero =>
    intro i infl cache ctr log r h
    exact absurd h (by simp [updateLoop])
  | succ fuel ih =>
    intro i infl cache ctr log r h
    unfold updateLoop at h
    by_cases hi : i < infl.length
    · rw [dif_pos hi] at h
      cases hc : (infl.get ⟨i, hi⟩).chan with
      | none =>
        simp only [hc] at h
        exact ih i infl cache ctr log r h
      | some res =>
        cases res with
        | ok data =>
          simp only [hc] at h
          obtain ⟨np, h1, h2, h3⟩ := ih i (infl.eraseIdx i)
            (ainsert cache (infl.get ⟨i, hi⟩).config { data with id := ctr })
            (ctr + 1) (log ++ [((infl.get ⟨i, hi⟩).config, { data with id := ctr })]) r h
          refine ⟨((infl.get ⟨i, hi⟩).config, { data with id := ctr }) :: np, ?_, ?_, ?_⟩
          · rw [h1]; simp
          · simp only [List.map_cons, List.length_cons, h2]
            rw [List.range'_succ ctr np.length 1]
          · rw [h3, List.length_cons]; omega
        | error err =>
          simp only [hc] at h
          exact ih (i + 1) (infl.set i { infl.get ⟨i, hi⟩ with chan := none })
            cache ctr log r h
    · rw [dif_neg hi] at h
      cases h
      exact ⟨[], by simp, rfl, rfl⟩

theorem range'_pairwise_lt (n : Nat) :
    ∀ s, (List.range' s n).Pairwise (· < ·) := by
  induction n with
  | zero => intro s; simp
  | succ n ih =>
    intro s
    rw [List.range'_succ s n 1]
    exact List.Pairwise.cons (fun m hm => (List.mem_range'_1.mp hm).1) (ih (s + 1))

/-- Claim C9: the worker-produced artifact carries the placeholder
identifier 0 (generate_text always succeeds with id = 0), and the
identifier of a cached artifact is assigned only at the moment the drain
loop promotes it into the cache: across one drain the inserted artifacts
carry exactly the consecutive counter values starting at the entry counter,
hence the assigned identifiers are strictly increasing and two distinct
promotions never share an identifier. -/
theorem artifact_id_assigned_at_promotion (rz : Raster) (text : String) (fi : FontInfo)
    (sz : Nat) (lh : ℚ) (fuel i : Nat) (infl : List InflightGeneration)
    (cache : List (GeneratorConfig × CachedString)) (ctr : Nat) (r : UpdateResult)
    (h : updateLoop fuel i infl cache ctr [] = some r) :
    (∃ cs, generate_text rz text fi sz lh = .ok cs ∧ cs.id = 0) ∧
    r.insertLog.map (fun x => x.2.id) = List.range' ctr r.insertLog.length ∧
    (r.insertLog.map (fun x => x.2.id)).Pairwise (· < ·) := by
  obtain ⟨np, h1, h2, h3⟩ := updateLoop_log_ids fuel i infl cache ctr [] r h
  have hlog : r.insertLog = np := by simpa using h1
  refine ⟨⟨_, rfl, rfl⟩, ?_, ?_⟩
  · rw [hlog, h2]
  · rw [hlog, h2]
    exact range'_pairwise_lt np.length ctr

/-- A terminating drain over an empty in-flight list, for the witness. -/
def updRes0 : UpdateResult := ⟨[], [], 5, []⟩

theorem artifact_id_assigned_at_promotion_witness :
    (∃ cs, generate_text rz0 "Hi" fi0 16 2 = .ok cs ∧ cs.id = 0) ∧
    updRes0.insertLog.map (fun x => x.2.id) = List.range' 5 updRes0.insertLog.length ∧
    (updRes0.insertLog.map (fun x => x.2.id)).Pairwise (· < ·) :=
  artifact_id_assigned_at_promotion rz0 "Hi" fi0 16 2 1 0 [] [] 5 updRes0 rfl

end Yaui
